import Mathlib

/-!
# freenews: certificate bootstrap (`cert.go`)

A shallow embedding of `setupCerts` and `setupDoTCerts`.

The two functions are straight-line Go code over the operating system
(`os.Stat`, `os.ReadFile`, `os.WriteFile`), the clock, the random key generator
and the Go standard library (`encoding/pem`, `crypto/x509`, `crypto/rsa`,
`crypto/tls`).  None of that is code of the repository, so it enters the model
as data:

* `World` is the part of the machine the code observes: the files, whether a
  write succeeds, the stream of keys `rsa.GenerateKey` will return, the clock;
* `Lib` holds the deterministic library functions as uninterpreted functions;
* `Globals` holds the package-level variables the code reads and assigns
  (`proxyHosts`, `caString`, `ca`, `tlsHttpServerConfig`, `tlsDoTServerConfig`).

A run is a computation in the monad `M`, which threads the world, the globals
and the list of every external call made so far, and which ends by returning,
by `log.Fatal`, or by a nil-pointer panic.
-/

namespace Freenews

/-! ## Data -/

/-- Go `[]byte` (and the bytes of a Go `string`). -/
abbrev Bytes := List Nat

/-- Error values; only their presence matters to the code. -/
abbrev Err := String

/-- An instant of `time.Time`. -/
abbrev Time := Nat

/-- The fields of `pkix.Name` that the code sets. -/
structure Name where
  Organization : List String := []
  Country : List String := []
  Province : List String := []
  Locality : List String := []
  StreetAddress : List String := []
  PostalCode : List String := []
deriving DecidableEq, Repr

/-- Constants of `x509.KeyUsage` (bit flags). -/
abbrev KeyUsageDigitalSignature : Nat := 1
/-- Constant `x509.KeyUsageCertSign`, `1 << 5`. -/
abbrev KeyUsageCertSign : Nat := 32

/-- Constant `x509.ExtKeyUsageServerAuth`. -/
abbrev ExtKeyUsageServerAuth : Nat := 1
/-- Constant `x509.ExtKeyUsageClientAuth`. -/
abbrev ExtKeyUsageClientAuth : Nat := 2

/-- Constant `tls.VersionTLS10`. -/
abbrev VersionTLS10 : Nat := 0x0301

/-- The fields of `x509.Certificate` that the code sets; a field that a struct
literal leaves out has its zero value. `Raw` stands for the content of a
certificate that was parsed rather than built. -/
structure Certificate where
  SerialNumber : Int := 0
  Subject : Name := {}
  DNSNames : List String := []
  NotBefore : Time := 0
  NotAfter : Time := 0
  SubjectKeyId : Bytes := []
  IsCA : Bool := false
  ExtKeyUsage : List Nat := []
  KeyUsage : Nat := 0
  BasicConstraintsValid : Bool := false
  Raw : Bytes := []
deriving DecidableEq, Repr

/-- An `rsa.PublicKey`. -/
structure PublicKey where
  N : Nat
  E : Nat
deriving DecidableEq, Repr

/-- An `rsa.PrivateKey`; it embeds its public key. -/
structure PrivateKey where
  PublicKey : PublicKey
  D : Nat
deriving DecidableEq, Repr

/-- A `pem.Block` (the code sets no headers); `BlockType` is its field `Type`. -/
structure PemBlock where
  BlockType : String
  Bytes : Bytes
deriving DecidableEq, Repr

/-- A `tls.Certificate`: the DER chain and the private key it was loaded with. -/
structure TlsCertificate where
  Certificate : List Bytes
  PrivateKey : PrivateKey
deriving DecidableEq, Repr

/-- The fields of `tls.Config` that govern the certificate list, the protocol
version, the cipher suites and the application protocols; a field that a struct
literal leaves out has its zero value. -/
structure TlsConfig where
  Certificates : List TlsCertificate := []
  MinVersion : Nat := 0
  MaxVersion : Nat := 0
  CipherSuites : List Nat := []
  PreferServerCipherSuites : Bool := false
  NextProtos : List String := []
deriving DecidableEq, Repr

/-- How a library call that may dereference a nil argument ends. -/
inductive CallResult (α : Type) where
  | ok (a : α)
  | error (e : Err)
  | panic
deriving DecidableEq, Repr

/-! ## The environment -/

/-- What the operating system knows about one path. -/
inductive Node where
  /-- No such file: `os.Stat` fails with `os.ErrNotExist`. -/
  | absent
  /-- The file exists: `os.Stat` succeeds; `os.ReadFile` succeeds iff `readable`. -/
  | file (content : Bytes) (mode : Nat) (readable : Bool)
  /-- Unknown: `os.Stat` fails with an error that is not `os.ErrNotExist`
  (permission denied on the directory, I/O error). -/
  | inaccessible
deriving DecidableEq, Repr

/-- The machine as the code sees it. -/
structure World where
  /-- The file system. -/
  fs : String → Node
  /-- Whether `os.WriteFile` on the path succeeds. -/
  writable : String → Bool
  /-- The result of the `n`-th call of `rsa.GenerateKey(rand.Reader, bits)`. -/
  keygen : Nat → Nat → Except Err PrivateKey
  /-- The number of keys drawn so far. -/
  keyCalls : Nat
  /-- The result of the `n`-th call of `time.Now()`. -/
  clock : Nat → Time
  /-- The number of clock readings so far. -/
  clockCalls : Nat

/-- The deterministic functions of the Go standard library that the code calls. -/
structure Lib where
  /-- Function `pem.Decode`: the first block, or nil. -/
  pemDecode : Bytes → Option PemBlock
  /-- Function `pem.Encode` into an empty buffer. -/
  pemEncode : PemBlock → Bytes
  /-- Function `x509.ParseCertificate`. -/
  parseCertificate : Bytes → Except Err Certificate
  /-- Function `x509.ParsePKCS1PrivateKey`. -/
  parsePKCS1PrivateKey : Bytes → Except Err PrivateKey
  /-- Function `x509.MarshalPKCS1PrivateKey`. -/
  marshalPKCS1PrivateKey : PrivateKey → Bytes
  /-- Function `x509.CreateCertificate(rand.Reader, template, parent, pub, priv)`;
  `parent` and `priv` are pointers and may be nil. -/
  createCertificate :
    Certificate → Option Certificate → PublicKey → Option PrivateKey → CallResult Bytes
  /-- Function `tls.X509KeyPair`. -/
  x509KeyPair : Bytes → Bytes → Except Err TlsCertificate
  /-- Method `Time.AddDate`. -/
  addDate : Time → Int → Int → Int → Time

/-- The package-level variables the two functions use. -/
structure Globals where
  proxyHosts : List String := []
  caString : Bytes := []
  ca : Option Certificate := none
  tlsHttpServerConfig : Option TlsConfig := none
  tlsDoTServerConfig : Option TlsConfig := none
deriving DecidableEq, Repr

/-- Every call the code makes outside itself, and every assignment of a TLS
configuration, in the order it happens. -/
inductive Event where
  | stat (path : String)
  | readFile (path : String)
  | writeFile (path : String) (data : Bytes) (perm : Nat)
  | now
  | generateKey (bits : Nat)
  | pemDecode (data : Bytes)
  | pemEncode (block : PemBlock)
  | parseCertificate (der : Bytes)
  | parsePKCS1PrivateKey (der : Bytes)
  | marshalPKCS1PrivateKey (key : PrivateKey)
  | createCertificate (template : Certificate) (parent : Option Certificate)
      (pub : PublicKey) (priv : Option PrivateKey)
  | x509KeyPair (certPEM : Bytes) (keyPEM : Bytes)
  | appendCertsFromPEM (pemCerts : Bytes)
  | assignHttpConfig (cfg : TlsConfig)
  | assignDoTConfig (cfg : TlsConfig)
deriving DecidableEq, Repr

/-! ## The monad of runs -/

/-- The state of a run. -/
structure St where
  world : World
  globals : Globals
  trace : List Event

/-- How a run (or a part of one) ends. -/
inductive Res (α : Type) where
  /-- Control reaches the end. -/
  | ok (a : α) (s : St)
  /-- Function `log.Fatal`: the process exits. -/
  | fatal (e : Err) (s : St)
  /-- A nil-pointer dereference: the process panics. -/
  | panic (s : St)

/-- The state in which a run ended. -/
def Res.state {α : Type} : Res α → St
  | .ok _ s => s
  | .fatal _ s => s
  | .panic s => s

/-- Whether control reached the end. -/
def Res.returned {α : Type} : Res α → Bool
  | .ok _ _ => true
  | _ => false

/-- Whether the run ended in `log.Fatal`. -/
def Res.isFatal {α : Type} : Res α → Bool
  | .fatal _ _ => true
  | _ => false

/-- The value a part of a run returned, if it returned. -/
def Res.value {α : Type} : Res α → Option α
  | .ok a _ => some a
  | _ => none

/-- A computation. -/
def M (α : Type) : Type := St → Res α

/-- Sequencing: an abort ends the run. -/
def M.bind {α β : Type} (m : M α) (f : α → M β) : M β := fun s =>
  match m s with
  | .ok a s1 => f a s1
  | .fatal e s1 => .fatal e s1
  | .panic s1 => .panic s1

instance : Monad M where
  pure a := fun s => .ok a s
  bind := M.bind

/-- Run a computation from a world and globals, with an empty trace. -/
def run {α : Type} (m : M α) (w : World) (g : Globals) : Res α :=
  m ⟨w, g, []⟩

/-- Record an external call. -/
def emit (e : Event) : M Unit := fun s =>
  .ok () { s with trace := s.trace ++ [e] }

/-- Function `log.Fatal(err)`. -/
def logFatal {α : Type} (e : Err) : M α := fun s => .fatal e s

/-- Selecting a field through a pointer: a nil pointer panics. -/
def deref {α : Type} : Option α → M α
  | some a => pure a
  | none => fun s => .panic s

/-- The idiom `if err != nil { log.Fatal(err) }` after a call. -/
def orFatal {α : Type} : Except Err α → M α
  | .ok a => pure a
  | .error e => logFatal e

/-- The same idiom after a library call that may also panic on a nil argument. -/
def orFatalCall {α : Type} : CallResult α → M α
  | .ok a => pure a
  | .error e => logFatal e
  | .panic => fun s => .panic s

/-- Read the globals. -/
def getGlobals : M Globals := fun s => .ok s.globals s

/-- Update the globals. -/
def modifyGlobals (f : Globals → Globals) : M Unit := fun s =>
  .ok () { s with globals := f s.globals }

/-! ## The operating system, the clock and the key generator -/

/-- The three outcomes of `os.Stat` that the code tells apart. -/
inductive StatResult where
  | exists
  | notExist
  | otherError
deriving DecidableEq, Repr

/-- What `os.Stat` answers for a node. -/
def Node.stat : Node → StatResult
  | .absent => .notExist
  | .file _ _ _ => .exists
  | .inaccessible => .otherError

/-- What `os.ReadFile` answers for a node. -/
def Node.read : Node → Except Err Bytes
  | .absent => .error "file does not exist"
  | .file c _ r => if r then .ok c else .error "permission denied"
  | .inaccessible => .error "permission denied"

/-- The node after a successful `os.WriteFile(_, data, perm)`: an existing file
is truncated and keeps its mode, a new file takes `perm`. -/
def Node.written (data : Bytes) (perm : Nat) : Node → Node
  | .file _ m r => .file data m r
  | _ => .file data perm true

/-- The content of a node, when it is a file. -/
def Node.content : Node → Option Bytes
  | .file c _ _ => some c
  | _ => none

/-- Function `os.Stat`. -/
def osStat (path : String) : M StatResult := fun s =>
  .ok (s.world.fs path).stat { s with trace := s.trace ++ [.stat path] }

/-- Function `os.ReadFile`. -/
def osReadFile (path : String) : M (Except Err Bytes) := fun s =>
  .ok (s.world.fs path).read { s with trace := s.trace ++ [.readFile path] }

/-- Function `os.WriteFile`. -/
def osWriteFile (path : String) (data : Bytes) (perm : Nat) : M (Except Err Unit) := fun s =>
  if s.world.writable path then
    .ok (.ok ())
      { s with
        world := { s.world with
          fs := fun p => if p = path then (s.world.fs path).written data perm else s.world.fs p }
        trace := s.trace ++ [.writeFile path data perm] }
  else
    .ok (.error "write failed") { s with trace := s.trace ++ [.writeFile path data perm] }

/-- Function `time.Now`. -/
def timeNow : M Time := fun s =>
  .ok (s.world.clock s.world.clockCalls)
    { s with
      world := { s.world with clockCalls := s.world.clockCalls + 1 }
      trace := s.trace ++ [.now] }

/-- Function `rsa.GenerateKey(rand.Reader, bits)`. -/
def rsaGenerateKey (bits : Nat) : M (Except Err PrivateKey) := fun s =>
  .ok (s.world.keygen s.world.keyCalls bits)
    { s with
      world := { s.world with keyCalls := s.world.keyCalls + 1 }
      trace := s.trace ++ [.generateKey bits] }

/-- A call of a library function: recorded, then answered. -/
def libCall {α : Type} (e : Event) (a : α) : M α := fun s =>
  .ok a { s with trace := s.trace ++ [e] }

/-- A pointer result of a parser: nil when the parser fails. -/
def ptrOf {α : Type} : Except Err α → Option α
  | .ok a => some a
  | .error _ => none

/-! ## `setupCerts` -/

/-- The path of the trust anchor certificate. -/
abbrev caPath : String := "cert/ca.pem"
/-- The path of the trust anchor private key. -/
abbrev keyPath : String := "cert/key.pem"

/-- Lines 46-62: the struct literal assigned to `ca`; `t1` and `t2` are the two
readings of `time.Now()`. -/
def caTemplate (lib : Lib) (t1 t2 : Time) : Certificate :=
  { SerialNumber := 2019
    Subject :=
      { Organization := ["Freenews Org"]
        Country := ["US"]
        Province := [""]
        Locality := ["San Francisco"]
        StreetAddress := ["Golden Gate Bridge"]
        PostalCode := ["94016"] }
    NotBefore := t1
    NotAfter := lib.addDate t2 10 0 0
    IsCA := true
    ExtKeyUsage := [ExtKeyUsageClientAuth, ExtKeyUsageServerAuth]
    KeyUsage := KeyUsageDigitalSignature ||| KeyUsageCertSign
    BasicConstraintsValid := true }

/-- Lines 98-102: the loop over `proxyHosts`; `fmt.Sprintf("*.%s", host)` is
`"*." ++ host`. -/
def dnsNamesOf (proxyHosts : List String) : List String :=
  proxyHosts.foldl (fun dnsNames host => (dnsNames ++ ["*." ++ host]) ++ [host]) []

/-- Lines 105-122: the struct literal of the server certificate. -/
def leafTemplate (lib : Lib) (dnsNames : List String) (t1 t2 : Time) : Certificate :=
  { SerialNumber := 2020
    Subject :=
      { Organization := ["Freenews"]
        Country := ["US"]
        Province := [""]
        Locality := ["San Francisco"]
        StreetAddress := ["Golden Gate Bridge"]
        PostalCode := ["94016"] }
    DNSNames := dnsNames
    NotBefore := t1
    NotAfter := lib.addDate t2 10 0 0
    SubjectKeyId := [1, 2, 3, 4, 6]
    ExtKeyUsage := [ExtKeyUsageClientAuth, ExtKeyUsageServerAuth]
    KeyUsage := KeyUsageDigitalSignature }

/-- Lines 151-156: the struct literal assigned to `tlsHttpServerConfig`. -/
def httpConfig (serverCert : TlsCertificate) : TlsConfig :=
  { MinVersion := VersionTLS10
    NextProtos := ["http/1.1"]
    Certificates := [serverCert]
    PreferServerCipherSuites := true }

/-- Lines 26-42, the branch taken when `os.Stat("cert/ca.pem")` succeeds.
Returns the locals `caPrivKey` and `caPEMBuffer`. The results of the two
parsers are assigned and their errors are never looked at. -/
def loadTrustAnchor (lib : Lib) : M (Option PrivateKey × Option Bytes) := do
  let caPEMBytes ← orFatal (← osReadFile caPath)
  modifyGlobals (fun g => { g with caString := caPEMBytes })
  let caPEMBuffer := some caPEMBytes
  let caPEM ← libCall (.pemDecode caPEMBytes) (lib.pemDecode caPEMBytes)
  let caBlock ← deref caPEM
  let caParsed ← libCall (.parseCertificate caBlock.Bytes) (lib.parseCertificate caBlock.Bytes)
  modifyGlobals (fun g => { g with ca := ptrOf caParsed })
  let caPrivKeyPEMBytes ← orFatal (← osReadFile keyPath)
  let caPrivKeyPEM ← libCall (.pemDecode caPrivKeyPEMBytes) (lib.pemDecode caPrivKeyPEMBytes)
  let keyBlock ← deref caPrivKeyPEM
  let keyParsed ←
    libCall (.parsePKCS1PrivateKey keyBlock.Bytes) (lib.parsePKCS1PrivateKey keyBlock.Bytes)
  pure (ptrOf keyParsed, caPEMBuffer)

/-- Lines 45-95, the branch taken when `os.Stat("cert/ca.pem")` fails with
`os.ErrNotExist`. Returns the locals `caPrivKey` and `caPEMBuffer`. -/
def generateTrustAnchor (lib : Lib) : M (Option PrivateKey × Option Bytes) := do
  let t1 ← timeNow
  let t2 ← timeNow
  let ca := caTemplate lib t1 t2
  modifyGlobals (fun g => { g with ca := some ca })
  let caPrivKey ← orFatal (← rsaGenerateKey 4096)
  let caBytes ← orFatalCall
    (← libCall (.createCertificate ca (some ca) caPrivKey.PublicKey (some caPrivKey))
      (lib.createCertificate ca (some ca) caPrivKey.PublicKey (some caPrivKey)))
  let caBlock : PemBlock := { BlockType := "CERTIFICATE", Bytes := caBytes }
  let caPEMBuffer ← libCall (.pemEncode caBlock) (lib.pemEncode caBlock)
  modifyGlobals (fun g => { g with caString := caPEMBuffer })
  orFatal (← osWriteFile caPath caPEMBuffer 0o600)
  let der ← libCall (.marshalPKCS1PrivateKey caPrivKey) (lib.marshalPKCS1PrivateKey caPrivKey)
  let keyBlock : PemBlock := { BlockType := "RSA PRIVATE KEY", Bytes := der }
  let caPrivKeyString ← libCall (.pemEncode keyBlock) (lib.pemEncode keyBlock)
  orFatal (← osWriteFile keyPath caPrivKeyString 0o600)
  pure (some caPrivKey, some caPEMBuffer)

/-- Lines 22-96: the declaration of the locals and the `if / else if` on the
result of `os.Stat("cert/ca.pem")`. There is no final `else`: on any other
error of `os.Stat` the locals keep their nil values and `ca` is not assigned. -/
def acquireTrustAnchor (lib : Lib) : M (Option PrivateKey × Option Bytes) := do
  match ← osStat caPath with
  | .exists => loadTrustAnchor lib
  | .notExist => generateTrustAnchor lib
  | .otherError => pure (none, none)

/-- Lines 98-159: the server certificate, the TLS configuration and the
certificate pool, given the locals `caPrivKey` and `caPEMBuffer`. -/
def issueAndAssemble (lib : Lib) (caPrivKey : Option PrivateKey)
    (caPEMBuffer : Option Bytes) : M Unit := do
  let dnsNames := dnsNamesOf (← getGlobals).proxyHosts
  let t1 ← timeNow
  let t2 ← timeNow
  let cert := leafTemplate lib dnsNames t1 t2
  let certPrivKey ← orFatal (← rsaGenerateKey 4096)
  let ca := (← getGlobals).ca
  let certBytes ← orFatalCall
    (← libCall (.createCertificate cert ca certPrivKey.PublicKey caPrivKey)
      (lib.createCertificate cert ca certPrivKey.PublicKey caPrivKey))
  let certBlock : PemBlock := { BlockType := "CERTIFICATE", Bytes := certBytes }
  let certPEM ← libCall (.pemEncode certBlock) (lib.pemEncode certBlock)
  let der ← libCall (.marshalPKCS1PrivateKey certPrivKey)
    (lib.marshalPKCS1PrivateKey certPrivKey)
  let keyBlock : PemBlock := { BlockType := "RSA PRIVATE KEY", Bytes := der }
  let certPrivKeyPEM ← libCall (.pemEncode keyBlock) (lib.pemEncode keyBlock)
  let serverCert ← orFatal
    (← libCall (.x509KeyPair certPEM certPrivKeyPEM) (lib.x509KeyPair certPEM certPrivKeyPEM))
  emit (.assignHttpConfig (httpConfig serverCert))
  modifyGlobals (fun g => { g with tlsHttpServerConfig := some (httpConfig serverCert) })
  let caPEMBytes ← deref caPEMBuffer
  emit (.appendCertsFromPEM caPEMBytes)

/-- Function `setupCerts` (lines 19-160). -/
def setupCerts (lib : Lib) : M Unit := do
  let anchor ← acquireTrustAnchor lib
  issueAndAssemble lib anchor.1 anchor.2

/-! ## `setupDoTCerts` -/

/-- The path of the DoT certificate. -/
abbrev dotCertPath : String := "cert/dot_cert.pem"
/-- The path of the DoT private key. -/
abbrev dotKeyPath : String := "cert/dot_key.pem"

/-- Lines 185-188: the struct literal assigned to `tlsDoTServerConfig`. -/
def dotConfig (serverCert : TlsCertificate) : TlsConfig :=
  { Certificates := [serverCert]
    PreferServerCipherSuites := true }

/-- The error value of `os.Stat`, nil when the file exists. -/
def StatResult.err : StatResult → Except Err Unit
  | .exists => .ok ()
  | .notExist => .error "file does not exist"
  | .otherError => .error "permission denied"

/-- Function `setupDoTCerts` (lines 162-190). -/
def setupDoTCerts (lib : Lib) : M Unit := do
  orFatal (← osStat dotCertPath).err
  orFatal (← osStat dotKeyPath).err
  let certPEMBytes ← orFatal (← osReadFile dotCertPath)
  let certPrivKeyPEMBytes ← orFatal (← osReadFile dotKeyPath)
  let serverCert ← orFatal
    (← libCall (.x509KeyPair certPEMBytes certPrivKeyPEMBytes)
      (lib.x509KeyPair certPEMBytes certPrivKeyPEMBytes))
  emit (.assignDoTConfig (dotConfig serverCert))
  modifyGlobals (fun g => { g with tlsDoTServerConfig := some (dotConfig serverCert) })

/-! ## A sample environment

A small library and a few worlds on which the definitions can be evaluated.
The sample library frames a PEM block as its type's length followed by its
bytes, takes a DER certificate to start with byte 48 and a DER key to be three
numbers, ends a created certificate with the modulus of its public key, and,
as the Go library does, panics in `createCertificate` on a nil parent or a nil
signing key. Its `addDate` is a stand-in that adds 365-day years and ignores
months and days; it is not calendar arithmetic, it only fills `NotAfter` in the
sample evaluations, and every general statement keeps `Lib.addDate`
uninterpreted. -/

/-- The sample library. -/
def sampleLib : Lib where
  pemDecode data :=
    match data with
    | 11 :: rest => some { BlockType := "CERTIFICATE", Bytes := rest }
    | 15 :: rest => some { BlockType := "RSA PRIVATE KEY", Bytes := rest }
    | _ => none
  pemEncode block := block.BlockType.length :: block.Bytes
  parseCertificate der :=
    match der with
    | 48 :: rest => .ok { Raw := 48 :: rest }
    | _ => .error "x509: malformed certificate"
  parsePKCS1PrivateKey der :=
    match der with
    | [n, e, d] => .ok { PublicKey := { N := n, E := e }, D := d }
    | _ => .error "x509: failed to parse private key"
  marshalPKCS1PrivateKey key := [key.PublicKey.N, key.PublicKey.E, key.D]
  createCertificate template parent pub priv :=
    match parent, priv with
    | some p, some k => .ok [48, template.SerialNumber.toNat, p.SerialNumber.toNat, k.D, pub.N]
    | _, _ => .panic
  x509KeyPair certPEM keyPEM :=
    match certPEM, keyPEM with
    | 11 :: 48 :: cert, [15, n, e, d] =>
      if cert.getLast? = some n then
        .ok { Certificate := [48 :: cert], PrivateKey := { PublicKey := { N := n, E := e }, D := d } }
      else .error "tls: private key does not match public key"
    | _, _ => .error "tls: failed to find any PEM data"
  addDate t years _ _ := t + 31536000 * years.toNat

/-- A sample world around a file system: every write succeeds, the `n`-th key
has modulus `1000 + n`, the clock advances by one per reading. -/
def sampleWorld (fs : String → Node) (writable : String → Bool) : World where
  fs := fs
  writable := writable
  keygen n _ := .ok { PublicKey := { N := 1000 + n, E := 65537 }, D := 7 + n }
  keyCalls := 0
  clock n := 1700000000 + n
  clockCalls := 0

/-- The globals of a fresh process configured with two hosts. -/
def sampleGlobals : Globals := { proxyHosts := ["a.test", "b.test"] }

/-- An empty file system. -/
def emptyFs : String → Node := fun _ => .absent

/-- A file system holding a well-formed trust anchor. -/
def anchorFs : String → Node := fun p =>
  if p = caPath then .file [11, 48, 1, 2, 3] 0o600 true
  else if p = keyPath then .file [15, 77, 65537, 5] 0o600 true
  else .absent

/-- A file system without `cert/ca.pem` and with a `cert/key.pem` of mode 0644
left from earlier. -/
def staleKeyFs : String → Node := fun p =>
  if p = keyPath then .file [15, 1, 2, 3] 0o644 true else .absent

/-- A file system holding a trust anchor certificate and no key. -/
def anchorNoKeyFs : String → Node := fun p =>
  if p = caPath then .file [11, 48, 1, 2, 3] 0o600 true else .absent

/-- A file system whose `cert/ca.pem` holds a PEM block that is not a
certificate, next to a well-formed key. -/
def badDerFs : String → Node := fun p =>
  if p = caPath then .file [11, 0, 0] 0o600 true
  else if p = keyPath then .file [15, 77, 65537, 5] 0o600 true
  else .absent

/-- A file system in which `cert/ca.pem` cannot be examined. -/
def deniedFs : String → Node := fun p =>
  if p = caPath then .inaccessible else .absent

/-- A file system holding a well-formed DoT pair. -/
def dotFs : String → Node := fun p =>
  if p = dotCertPath then .file [11, 48, 9, 77] 0o600 true
  else if p = dotKeyPath then .file [15, 77, 65537, 5] 0o600 true
  else .absent

/-- A file system holding the DoT key and no DoT certificate. -/
def dotNoCertFs : String → Node := fun p =>
  if p = dotKeyPath then .file [15, 77, 65537, 5] 0o600 true else .absent

/-! ## Observations on runs -/

/-- The trust anchor material that the anchor step hands to the rest of
`setupCerts`: the globals `caString` and `ca` and the local `caPrivKey`; there
is none when the step aborts. -/
def anchorMaterial (r : Res (Option PrivateKey × Option Bytes)) :
    Option (Bytes × Option Certificate × Option PrivateKey) :=
  match r with
  | .ok a s => some (s.globals.caString, s.globals.ca, a.1)
  | .fatal _ _ => none
  | .panic _ => none

/-- The data and the mode of each `os.WriteFile` that a trace makes to a path. -/
def writesTo (path : String) : List Event → List (Bytes × Nat)
  | [] => []
  | .writeFile p d q :: rest =>
    if p = path then (d, q) :: writesTo path rest else writesTo path rest
  | _ :: rest => writesTo path rest

/-- Whether an event assigns `tlsHttpServerConfig`. -/
def Event.isAssignHttp : Event → Bool
  | .assignHttpConfig _ => true
  | _ => false

/-! ## Evaluation rules -/

section Rules
variable {α β : Type}

theorem bind_apply (m : M α) (f : α → M β) (s : St) :
    (m >>= f) s =
      match m s with
      | .ok a s1 => f a s1
      | .fatal e s1 => .fatal e s1
      | .panic s1 => .panic s1 := rfl

@[simp] theorem bind_assoc (m : M α) (f : α → M β) {γ : Type} (g : β → M γ) :
    (m >>= f) >>= g = m >>= fun a => f a >>= g := by
  funext s
  simp only [bind_apply]
  cases m s <;> rfl

@[simp] theorem pure_apply (a : α) (s : St) : (pure a : M α) s = .ok a s := rfl

@[simp] theorem pure_bind (a : α) (f : α → M β) (s : St) : (pure a >>= f) s = f a s := rfl

@[simp] theorem orFatal_apply (x : Except Err α) (s : St) :
    orFatal x s = match x with
      | .ok a => Res.ok a s
      | .error e => Res.fatal e s := by
  cases x <;> rfl

@[simp] theorem orFatal_bind (x : Except Err α) (f : α → M β) (s : St) :
    (orFatal x >>= f) s = match x with
      | .ok a => f a s
      | .error e => Res.fatal e s := by
  cases x <;> rfl

@[simp] theorem orFatalCall_apply (x : CallResult α) (s : St) :
    orFatalCall x s = match x with
      | .ok a => Res.ok a s
      | .error e => Res.fatal e s
      | .panic => Res.panic s := by
  cases x <;> rfl

@[simp] theorem orFatalCall_bind (x : CallResult α) (f : α → M β) (s : St) :
    (orFatalCall x >>= f) s = match x with
      | .ok a => f a s
      | .error e => Res.fatal e s
      | .panic => Res.panic s := by
  cases x <;> rfl

@[simp] theorem deref_apply (x : Option α) (s : St) :
    deref x s = match x with
      | some a => Res.ok a s
      | none => Res.panic s := by
  cases x <;> rfl

@[simp] theorem deref_bind (x : Option α) (f : α → M β) (s : St) :
    (deref x >>= f) s = match x with
      | some a => f a s
      | none => Res.panic s := by
  cases x <;> rfl

@[simp] theorem emit_apply (e : Event) (s : St) :
    emit e s = .ok () { s with trace := s.trace ++ [e] } := rfl

@[simp] theorem emit_bind (e : Event) (f : Unit → M β) (s : St) :
    (emit e >>= f) s = f () { s with trace := s.trace ++ [e] } := rfl

@[simp] theorem libCall_apply (e : Event) (a : α) (s : St) :
    libCall e a s = .ok a { s with trace := s.trace ++ [e] } := rfl

@[simp] theorem libCall_bind (e : Event) (a : α) (f : α → M β) (s : St) :
    (libCall e a >>= f) s = f a { s with trace := s.trace ++ [e] } := rfl

@[simp] theorem getGlobals_bind (f : Globals → M β) (s : St) :
    (getGlobals >>= f) s = f s.globals s := rfl

@[simp] theorem modifyGlobals_apply (h : Globals → Globals) (s : St) :
    modifyGlobals h s = .ok () { s with globals := h s.globals } := rfl

@[simp] theorem modifyGlobals_bind (h : Globals → Globals) (f : Unit → M β) (s : St) :
    (modifyGlobals h >>= f) s = f () { s with globals := h s.globals } := rfl

@[simp] theorem osStat_bind (path : String) (f : StatResult → M β) (s : St) :
    (osStat path >>= f) s =
      f (s.world.fs path).stat { s with trace := s.trace ++ [.stat path] } := rfl

@[simp] theorem osReadFile_bind (path : String) (f : Except Err Bytes → M β) (s : St) :
    (osReadFile path >>= f) s =
      f (s.world.fs path).read { s with trace := s.trace ++ [.readFile path] } := rfl

@[simp] theorem osWriteFile_bind (path : String) (data : Bytes) (perm : Nat)
    (f : Except Err Unit → M β) (s : St) :
    (osWriteFile path data perm >>= f) s =
      if s.world.writable path then
        f (.ok ())
          { s with
            world := { s.world with
              fs := fun p =>
                if p = path then (s.world.fs path).written data perm else s.world.fs p }
            trace := s.trace ++ [.writeFile path data perm] }
      else
        f (.error "write failed") { s with trace := s.trace ++ [.writeFile path data perm] } := by
  rw [bind_apply]
  unfold osWriteFile
  by_cases h : s.world.writable path = true <;> simp [h]

@[simp] theorem timeNow_bind (f : Time → M β) (s : St) :
    (timeNow >>= f) s =
      f (s.world.clock s.world.clockCalls)
        { s with
          world := { s.world with clockCalls := s.world.clockCalls + 1 }
          trace := s.trace ++ [.now] } := rfl

@[simp] theorem rsaGenerateKey_bind (bits : Nat) (f : Except Err PrivateKey → M β) (s : St) :
    (rsaGenerateKey bits >>= f) s =
      f (s.world.keygen s.world.keyCalls bits)
        { s with
          world := { s.world with keyCalls := s.world.keyCalls + 1 }
          trace := s.trace ++ [.generateKey bits] } := rfl

@[simp] theorem state_ok (a : α) (s : St) : (Res.ok a s).state = s := rfl
@[simp] theorem state_fatal (e : Err) (s : St) : (Res.fatal e s : Res α).state = s := rfl
@[simp] theorem state_panic (s : St) : (Res.panic s : Res α).state = s := rfl
@[simp] theorem returned_ok (a : α) (s : St) : (Res.ok a s).returned = true := rfl
@[simp] theorem returned_fatal (e : Err) (s : St) : (Res.fatal e s : Res α).returned = false := rfl
@[simp] theorem returned_panic (s : St) : (Res.panic s : Res α).returned = false := rfl
@[simp] theorem isFatal_ok (a : α) (s : St) : (Res.ok a s).isFatal = false := rfl
@[simp] theorem isFatal_fatal (e : Err) (s : St) : (Res.fatal e s : Res α).isFatal = true := rfl
@[simp] theorem isFatal_panic (s : St) : (Res.panic s : Res α).isFatal = false := rfl
@[simp] theorem value_ok (a : α) (s : St) : (Res.ok a s).value = some a := rfl
@[simp] theorem value_fatal (e : Err) (s : St) : (Res.fatal e s : Res α).value = none := rfl
@[simp] theorem value_panic (s : St) : (Res.panic s : Res α).value = none := rfl

end Rules

set_option maxHeartbeats 1000000

@[simp] theorem keyPath_ne_caPath : (keyPath = caPath) = False := by
  simp [keyPath, caPath]

@[simp] theorem caPath_ne_keyPath : (caPath = keyPath) = False := by
  simp [keyPath, caPath]

@[simp] theorem content_written (data : Bytes) (perm : Nat) (n : Node) :
    (n.written data perm).content = some data := by
  cases n <;> rfl

@[simp] theorem anchorMaterial_ok (a : Option PrivateKey × Option Bytes) (s : St) :
    anchorMaterial (.ok a s) = some (s.globals.caString, s.globals.ca, a.1) := rfl

@[simp] theorem anchorMaterial_fatal (e : Err) (s : St) :
    anchorMaterial (.fatal e s) = none := rfl

@[simp] theorem anchorMaterial_panic (s : St) : anchorMaterial (.panic s) = none := rfl

/-! ## The DNS names of the server certificate -/

theorem dnsNamesOf_foldl (hs : List String) (acc : List String) :
    hs.foldl (fun dnsNames host => (dnsNames ++ ["*." ++ host]) ++ [host]) acc
      = acc ++ hs.flatMap (fun h => ["*." ++ h, h]) := by
  induction hs generalizing acc with
  | nil => simp
  | cons h t ih =>
    rw [List.foldl_cons, ih, List.flatMap_cons]
    simp

theorem dnsNamesOf_eq (hs : List String) :
    dnsNamesOf hs = hs.flatMap (fun h => ["*." ++ h, h]) := by
  rw [dnsNamesOf, dnsNamesOf_foldl]
  simp

theorem dnsNamesOf_length (hs : List String) : (dnsNamesOf hs).length = 2 * hs.length := by
  rw [dnsNamesOf_eq]
  induction hs with
  | nil => rfl
  | cons h t ih =>
    simp [List.flatMap_cons, ih]
    omega

/-- Every server certificate (serial number 2020) that `setupCerts` asks the
library to create carries the names computed by the loop over `proxyHosts`. -/
theorem leaf_template_names (lib : Lib) (w : World) (g : Globals)
    (tmpl : Certificate) (parent : Option Certificate) (pub : PublicKey) (priv : Option PrivateKey)
    (hev : Event.createCertificate tmpl parent pub priv ∈ (run (setupCerts lib) w g).state.trace)
    (hleaf : tmpl.SerialNumber = 2020) :
    tmpl.DNSNames = dnsNamesOf g.proxyHosts := by
  revert hev hleaf
  cases hst : w.fs caPath <;>
    simp [run, setupCerts, acquireTrustAnchor, loadTrustAnchor, generateTrustAnchor,
      issueAndAssemble, hst, Node.stat]
  all_goals repeat' split
  all_goals simp
  all_goals first
    | done
    | (rintro (⟨rfl, -⟩ | ⟨rfl, -⟩) <;> simp [caTemplate, leafTemplate])

/-- C1. The DNSNames of the server certificate that `setupCerts` creates are,
for the configured hosts in input order, the pair `"*." ++ H`, `H` of each host
`H` (wildcard first, for every host): twice as many names as hosts; for
`["example.com"]` the names are exactly `example.com` and `*.example.com`, and
for `["a.test", "b.test"]` the list is
`["*.a.test", "a.test", "*.b.test", "b.test"]`. -/
theorem C1_leaf_dnsNames (lib : Lib) (w : World) (g : Globals)
    (tmpl : Certificate) (parent : Option Certificate) (pub : PublicKey) (priv : Option PrivateKey)
    (hev : Event.createCertificate tmpl parent pub priv ∈ (run (setupCerts lib) w g).state.trace)
    (hleaf : tmpl.SerialNumber = 2020) :
    tmpl.DNSNames = g.proxyHosts.flatMap (fun host => ["*." ++ host, host])
    ∧ tmpl.DNSNames.length = 2 * g.proxyHosts.length
    ∧ (g.proxyHosts = ["example.com"] →
        ∀ name, name ∈ tmpl.DNSNames ↔ (name = "example.com" ∨ name = "*.example.com"))
    ∧ (g.proxyHosts = ["a.test", "b.test"] →
        tmpl.DNSNames = ["*.a.test", "a.test", "*.b.test", "b.test"]) := by
  have hn := leaf_template_names lib w g tmpl parent pub priv hev hleaf
  refine ⟨?_, ?_, ?_, ?_⟩
  · rw [hn, dnsNamesOf_eq]
  · rw [hn, dnsNamesOf_length]
  · intro hh name
    rw [hn, hh]
    have : dnsNamesOf ["example.com"] = ["*.example.com", "example.com"] := by decide
    rw [this]
    simp
    tauto
  · intro hh
    rw [hn, hh]
    decide

/-- Witness of C1 on the sample world with a stored anchor and the hosts
`a.test`, `b.test`. -/
theorem C1_leaf_dnsNames_witness :
    (leafTemplate sampleLib ["*.a.test", "a.test", "*.b.test", "b.test"]
        1700000000 1700000001).DNSNames
      = ["a.test", "b.test"].flatMap (fun host => ["*." ++ host, host]) :=
  (C1_leaf_dnsNames sampleLib (sampleWorld anchorFs (fun _ => true)) sampleGlobals
    (leafTemplate sampleLib ["*.a.test", "a.test", "*.b.test", "b.test"] 1700000000 1700000001)
    (some { Raw := [48, 1, 2, 3] }) { N := 1000, E := 65537 }
    (some { PublicKey := { N := 77, E := 65537 }, D := 5 })
    (by decide) (by decide)).1

/-! ## `setupDoTCerts` without its files -/

/-- C7. When `cert/dot_cert.pem` or `cert/dot_key.pem` is absent, `setupDoTCerts`
ends in `log.Fatal` having made only `os.Stat` calls: it reads no file, parses
no key pair, writes no file, generates nothing, and leaves the file system and
every global, `tlsDoTServerConfig` included, as they were. -/
theorem C7_dot_missing_material (lib : Lib) (w : World) (g : Globals)
    (habs : w.fs dotCertPath = .absent ∨ w.fs dotKeyPath = .absent) :
    (run (setupDoTCerts lib) w g).isFatal = true
    ∧ (∀ ev ∈ (run (setupDoTCerts lib) w g).state.trace, ∃ p, ev = .stat p)
    ∧ (∀ p, Event.readFile p ∉ (run (setupDoTCerts lib) w g).state.trace)
    ∧ (∀ c k, Event.x509KeyPair c k ∉ (run (setupDoTCerts lib) w g).state.trace)
    ∧ (∀ p d q, Event.writeFile p d q ∉ (run (setupDoTCerts lib) w g).state.trace)
    ∧ (∀ b, Event.generateKey b ∉ (run (setupDoTCerts lib) w g).state.trace)
    ∧ (∀ cfg, Event.assignDoTConfig cfg ∉ (run (setupDoTCerts lib) w g).state.trace)
    ∧ (run (setupDoTCerts lib) w g).state.world.fs = w.fs
    ∧ (run (setupDoTCerts lib) w g).state.globals = g := by
  rcases habs with h | h
  · simp [run, setupDoTCerts, h, Node.stat, StatResult.err]
  · cases hc : w.fs dotCertPath <;>
      simp [run, setupDoTCerts, h, hc, Node.stat, StatResult.err]

/-- Witness of C7: the sample world that holds the DoT key and no DoT certificate. -/
theorem C7_dot_missing_material_witness :
    (run (setupDoTCerts sampleLib) (sampleWorld dotNoCertFs (fun _ => true)) sampleGlobals).isFatal
      = true :=
  (C7_dot_missing_material sampleLib (sampleWorld dotNoCertFs (fun _ => true)) sampleGlobals
    (Or.inl (by decide))).1

/-! ## The stored trust anchor -/

/-- C6. When `cert/ca.pem` exists and `cert/key.pem` is absent, `setupCerts`
does not return (it ends in `log.Fatal`, or in the nil-pointer panic when
`cert/ca.pem` holds no PEM block), and it regenerates nothing: no file is
written, no key is generated, no certificate is created, the file system is
unchanged and no TLS configuration is assigned. -/
theorem C6_key_absent_aborts (lib : Lib) (w : World) (g : Globals) (c : Bytes) (m : Nat)
    (rd : Bool) (hca : w.fs caPath = .file c m rd) (hkey : w.fs keyPath = .absent) :
    (run (setupCerts lib) w g).returned = false
    ∧ (∀ p d q, Event.writeFile p d q ∉ (run (setupCerts lib) w g).state.trace)
    ∧ (∀ b, Event.generateKey b ∉ (run (setupCerts lib) w g).state.trace)
    ∧ (∀ t p k q, Event.createCertificate t p k q ∉ (run (setupCerts lib) w g).state.trace)
    ∧ (∀ cfg, Event.assignHttpConfig cfg ∉ (run (setupCerts lib) w g).state.trace)
    ∧ (run (setupCerts lib) w g).state.world.fs = w.fs
    ∧ (run (setupCerts lib) w g).state.globals.tlsHttpServerConfig = g.tlsHttpServerConfig
    ∧ (run (setupCerts lib) w g).state.globals.tlsDoTServerConfig = g.tlsDoTServerConfig := by
  cases rd <;> cases hd : lib.pemDecode c <;>
    simp [run, setupCerts, acquireTrustAnchor, loadTrustAnchor, hca, hkey, hd, Node.stat,
      Node.read]

/-- Witness of C6: the sample world that holds an anchor certificate and no key. -/
theorem C6_key_absent_aborts_witness :
    (run (setupCerts sampleLib) (sampleWorld anchorNoKeyFs (fun _ => true)) sampleGlobals).returned
      = false :=
  (C6_key_absent_aborts sampleLib (sampleWorld anchorNoKeyFs (fun _ => true)) sampleGlobals
    [11, 48, 1, 2, 3] 0o600 true (by decide) (by decide)).1

/-- The anchor step on an existing `cert/ca.pem` reads and parses only. -/
theorem load_material (lib : Lib) (w : World) (g : Globals) (c : Bytes) (m : Nat) (rd : Bool)
    (hca : w.fs caPath = .file c m rd) :
    anchorMaterial (run (acquireTrustAnchor lib) w g) =
      (if rd then
        match lib.pemDecode c, (w.fs keyPath).read with
        | some caBlock, .ok k =>
          match lib.pemDecode k with
          | some keyBlock =>
            some (c, ptrOf (lib.parseCertificate caBlock.Bytes),
              ptrOf (lib.parsePKCS1PrivateKey keyBlock.Bytes))
          | none => none
        | _, _ => none
      else none) := by
  cases rd <;> cases hd : lib.pemDecode c <;> cases hk : w.fs keyPath <;>
    simp [run, acquireTrustAnchor, loadTrustAnchor, hca, hd, hk, Node.stat, Node.read]
  rename_i k km kr
  cases kr <;> simp
  cases hd2 : lib.pemDecode k <;> simp

/-- C2. When `cert/ca.pem` exists, a run of `setupCerts` writes no file and
leaves the file system as it was; the anchor step generates no key and creates
no certificate; the anchor material (`caString`, `ca`, `caPrivKey`) is the same
for any two worlds and globals that agree on the two files, so it is the same
again in a second run after the first, and when both files are readable and
hold a PEM block it is the content of `cert/ca.pem` and the two parser
results. -/
theorem C2_anchor_reused (lib : Lib) (w : World) (g : Globals) (c : Bytes) (m : Nat) (rd : Bool)
    (hca : w.fs caPath = .file c m rd) :
    (∀ p d q, Event.writeFile p d q ∉ (run (setupCerts lib) w g).state.trace)
    ∧ (run (setupCerts lib) w g).state.world.fs = w.fs
    ∧ (∀ b, Event.generateKey b ∉ (run (acquireTrustAnchor lib) w g).state.trace)
    ∧ (∀ t p k q,
        Event.createCertificate t p k q ∉ (run (acquireTrustAnchor lib) w g).state.trace)
    ∧ (∀ w2 g2, w2.fs caPath = w.fs caPath → w2.fs keyPath = w.fs keyPath →
        anchorMaterial (run (acquireTrustAnchor lib) w2 g2)
          = anchorMaterial (run (acquireTrustAnchor lib) w g))
    ∧ (∀ g2,
        anchorMaterial (run (acquireTrustAnchor lib) (run (setupCerts lib) w g).state.world g2)
          = anchorMaterial (run (acquireTrustAnchor lib) w g))
    ∧ (∀ k km caBlock keyBlock, rd = true → w.fs keyPath = .file k km true →
        lib.pemDecode c = some caBlock → lib.pemDecode k = some keyBlock →
        anchorMaterial (run (acquireTrustAnchor lib) w g)
          = some (c, ptrOf (lib.parseCertificate caBlock.Bytes),
              ptrOf (lib.parsePKCS1PrivateKey keyBlock.Bytes))) := by
  have hfs : (∀ p d q, Event.writeFile p d q ∉ (run (setupCerts lib) w g).state.trace)
      ∧ (run (setupCerts lib) w g).state.world.fs = w.fs := by
    simp [run, setupCerts, acquireTrustAnchor, loadTrustAnchor, issueAndAssemble, hca, Node.stat]
    repeat' split
    all_goals simp
  have hmat : ∀ w2 g2, w2.fs caPath = w.fs caPath → w2.fs keyPath = w.fs keyPath →
      anchorMaterial (run (acquireTrustAnchor lib) w2 g2)
        = anchorMaterial (run (acquireTrustAnchor lib) w g) := by
    intro w2 g2 h1 h2
    rw [load_material lib w g c m rd hca, load_material lib w2 g2 c m rd (h1.trans hca), h2]
  refine ⟨hfs.1, hfs.2, ?_, ?_, hmat, ?_, ?_⟩
  · simp [run, acquireTrustAnchor, loadTrustAnchor, hca, Node.stat]
    repeat' split
    all_goals simp
  · simp [run, acquireTrustAnchor, loadTrustAnchor, hca, Node.stat]
    repeat' split
    all_goals simp
  · intro g2
    apply hmat
    · rw [hfs.2]
    · rw [hfs.2]
  · intro k km caBlock keyBlock hrd hk hd1 hd2
    rw [load_material lib w g c m rd hca]
    simp [hrd, hk, hd1, hd2, Node.read]

/-- Witness of C2: two successive runs on the sample world with a stored anchor. -/
theorem C2_anchor_reused_witness :
    anchorMaterial (run (acquireTrustAnchor sampleLib)
        (run (setupCerts sampleLib) (sampleWorld anchorFs (fun _ => true)) sampleGlobals).state.world
        sampleGlobals)
      = anchorMaterial (run (acquireTrustAnchor sampleLib) (sampleWorld anchorFs (fun _ => true))
          sampleGlobals) :=
  (C2_anchor_reused sampleLib (sampleWorld anchorFs (fun _ => true)) sampleGlobals
    [11, 48, 1, 2, 3] 0o600 true (by decide)).2.2.2.2.2.1 sampleGlobals

/-! ## Runs that reach the server certificate -/

/-- When `os.Stat("cert/ca.pem")` fails with another error than "not exist",
`setupCerts` does not return. -/
theorem denied_not_returned (lib : Lib) (w : World) (g : Globals)
    (hst : w.fs caPath = .inaccessible) : (run (setupCerts lib) w g).returned = false := by
  simp only [run, setupCerts, acquireTrustAnchor, bind_assoc, osStat_bind, hst, Node.stat,
    pure_bind]
  simp only [issueAndAssemble, getGlobals_bind, timeNow_bind, rsaGenerateKey_bind,
    orFatal_bind]
  split
  · simp only [libCall_bind, getGlobals_bind, orFatalCall_bind]
    split
    · simp
      split <;> simp
    · simp
    · simp
  · simp

/-- In any run of `setupCerts`, an assignment of `tlsHttpServerConfig` follows a
call of `tls.X509KeyPair` that returned the certificate it holds. -/
theorem assign_after_accept (lib : Lib) (w : World) (g : Globals) (c : TlsConfig)
    (hev : Event.assignHttpConfig c ∈ (run (setupCerts lib) w g).state.trace) :
    ∃ cp kp sc, lib.x509KeyPair cp kp = .ok sc ∧ c = httpConfig sc
      ∧ Event.x509KeyPair cp kp
          ∈ (run (setupCerts lib) w g).state.trace.takeWhile (fun e => !e.isAssignHttp) := by
  revert hev
  cases hst : w.fs caPath
  · simp [run, setupCerts, acquireTrustAnchor, generateTrustAnchor, issueAndAssemble, hst,
      Node.stat]
    repeat' split
    all_goals simp_all [List.takeWhile, Event.isAssignHttp]
    all_goals (intro _; exact ⟨_, _, _, by assumption, rfl, rfl, rfl⟩)
  · simp [run, setupCerts, acquireTrustAnchor, loadTrustAnchor, issueAndAssemble, hst,
      Node.stat]
    repeat' split
    all_goals simp_all [List.takeWhile, Event.isAssignHttp]
    all_goals (intro _; exact ⟨_, _, _, by assumption, rfl, rfl, rfl⟩)
  · simp only [run, setupCerts, acquireTrustAnchor, bind_assoc, osStat_bind, hst, Node.stat,
      pure_bind]
    simp only [issueAndAssemble, getGlobals_bind, timeNow_bind, rsaGenerateKey_bind,
      orFatal_bind]
    split
    · simp only [libCall_bind, getGlobals_bind, orFatalCall_bind]
      split
      · simp
        split
        · simp_all [List.takeWhile, Event.isAssignHttp]
          intro _
          exact ⟨_, _, _, by assumption, rfl, rfl, rfl⟩
        · simp
      · simp
      · simp
    · simp

/-- What a returning run of `setupCerts` leaves in `tlsHttpServerConfig`. -/
theorem returned_http_config (lib : Lib) (w : World) (g : Globals)
    (hok : (run (setupCerts lib) w g).returned = true) :
    ∃ (serverCert : TlsCertificate) (certBytes : Bytes) (leafKey : PrivateKey)
      (tmpl : Certificate) (parent : Option Certificate) (priv : Option PrivateKey),
      (run (setupCerts lib) w g).state.globals.tlsHttpServerConfig = some (httpConfig serverCert)
      ∧ tmpl.SerialNumber = 2020
      ∧ Event.createCertificate tmpl parent leafKey.PublicKey priv
          ∈ (run (setupCerts lib) w g).state.trace
      ∧ lib.createCertificate tmpl parent leafKey.PublicKey priv = .ok certBytes
      ∧ lib.x509KeyPair (lib.pemEncode { BlockType := "CERTIFICATE", Bytes := certBytes })
          (lib.pemEncode
            { BlockType := "RSA PRIVATE KEY", Bytes := lib.marshalPKCS1PrivateKey leafKey })
          = .ok serverCert
      ∧ Event.x509KeyPair (lib.pemEncode { BlockType := "CERTIFICATE", Bytes := certBytes })
          (lib.pemEncode
            { BlockType := "RSA PRIVATE KEY", Bytes := lib.marshalPKCS1PrivateKey leafKey })
          ∈ (run (setupCerts lib) w g).state.trace.takeWhile (fun e => !e.isAssignHttp)
      ∧ (∀ c, Event.assignHttpConfig c ∈ (run (setupCerts lib) w g).state.trace →
          c = httpConfig serverCert) := by
  revert hok
  cases hst : w.fs caPath
  · simp [run, setupCerts, acquireTrustAnchor, generateTrustAnchor, issueAndAssemble, hst,
      Node.stat]
    repeat' split
    all_goals simp_all [List.takeWhile, Event.isAssignHttp, leafTemplate]
    refine ⟨_, rfl, _, _, _, ?_, _, _, Or.inr ⟨rfl, rfl, rfl, rfl⟩, ?_, ?_, ⟨rfl, rfl⟩, rfl⟩
    · rfl
    · assumption
    · assumption
  · simp [run, setupCerts, acquireTrustAnchor, loadTrustAnchor, issueAndAssemble, hst,
      Node.stat]
    repeat' split
    all_goals simp_all [List.takeWhile, Event.isAssignHttp, leafTemplate]
    refine ⟨_, rfl, _, _, _, ?_, _, _, ⟨rfl, rfl, rfl, rfl⟩, ?_, ?_, ⟨rfl, rfl⟩, rfl⟩
    · rfl
    · assumption
    · assumption
  · intro hok
    rw [denied_not_returned lib w g hst] at hok
    cases hok

/-- C3. In every run of `setupCerts` that returns, whether the anchor was
loaded (`os.Stat` succeeded) or generated (`os.Stat` said "not exist"), the
library is asked to create the server certificate from a template with serial
number 2020, key usage exactly `digitalSignature` and extended key usage
exactly `[clientAuth, serverAuth]`, with the anchor certificate `ca` as parent
and the anchor key `caPrivKey` as signing key, and with the public key of the
key drawn by the first `rsa.GenerateKey(rand.Reader, 4096)` after the anchor
step: the anchor key is not drawn at all when loaded, and is the draw before
it when generated. -/
theorem C3_leaf_signed_by_anchor (lib : Lib) (w : World) (g : Globals)
    (hok : (run (setupCerts lib) w g).returned = true) :
    ∃ (cs : Bytes) (caCert : Option Certificate) (anchorKey : Option PrivateKey)
      (leafKey : PrivateKey) (tmpl : Certificate),
      anchorMaterial (run (acquireTrustAnchor lib) w g) = some (cs, caCert, anchorKey)
      ∧ Event.createCertificate tmpl caCert leafKey.PublicKey anchorKey
          ∈ (run (setupCerts lib) w g).state.trace
      ∧ tmpl.SerialNumber = 2020
      ∧ tmpl.KeyUsage = KeyUsageDigitalSignature
      ∧ tmpl.ExtKeyUsage = [ExtKeyUsageClientAuth, ExtKeyUsageServerAuth]
      ∧ (run (setupCerts lib) w g).state.globals.ca = caCert
      ∧ Event.generateKey 4096 ∈ (run (setupCerts lib) w g).state.trace
      ∧ w.keygen (run (acquireTrustAnchor lib) w g).state.world.keyCalls 4096 = .ok leafKey
      ∧ (((w.fs caPath).stat = .exists
            ∧ (run (acquireTrustAnchor lib) w g).state.world.keyCalls = w.keyCalls)
          ∨ ((w.fs caPath).stat = .notExist
            ∧ (run (acquireTrustAnchor lib) w g).state.world.keyCalls = w.keyCalls + 1
            ∧ (∃ ak, w.keygen w.keyCalls 4096 = .ok ak ∧ anchorKey = some ak)
            ∧ caCert = some (caTemplate lib (w.clock w.clockCalls) (w.clock (w.clockCalls + 1))))) := by
  revert hok
  cases hst : w.fs caPath
  · simp [run, setupCerts, acquireTrustAnchor, generateTrustAnchor,
      issueAndAssemble, hst, Node.stat]
    repeat' split
    all_goals simp_all [leafTemplate]
    exact ⟨_, _, _, ⟨rfl, rfl, rfl⟩, _, _, Or.inr ⟨rfl, rfl, rfl, rfl⟩, rfl, rfl, rfl, rfl, rfl, rfl,
      rfl⟩
  · simp [run, setupCerts, acquireTrustAnchor, loadTrustAnchor,
      issueAndAssemble, hst, Node.stat]
    repeat' split
    all_goals simp_all [leafTemplate]
    exact ⟨_, _, _, ⟨rfl, rfl, rfl⟩, _, _, ⟨rfl, rfl, rfl, rfl⟩, rfl, rfl, rfl, rfl, rfl⟩
  · intro hok
    rw [denied_not_returned lib w g hst] at hok
    cases hok

/-- Witness of C3: the first run on the empty sample world. -/
theorem C3_leaf_signed_by_anchor_witness :
    ∃ (tmpl : Certificate) (caCert : Option Certificate) (anchorKey : Option PrivateKey)
      (leafKey : PrivateKey),
      Event.createCertificate tmpl caCert leafKey.PublicKey anchorKey
        ∈ (run (setupCerts sampleLib) (sampleWorld emptyFs (fun _ => true))
            sampleGlobals).state.trace
      ∧ tmpl.KeyUsage = KeyUsageDigitalSignature
      ∧ (run (setupCerts sampleLib) (sampleWorld emptyFs (fun _ => true))
            sampleGlobals).state.globals.ca = caCert := by
  obtain ⟨_, caCert, anchorKey, leafKey, tmpl, _, h2, _, h4, _, h6, _⟩ :=
    C3_leaf_signed_by_anchor sampleLib (sampleWorld emptyFs (fun _ => true)) sampleGlobals
      (by decide)
  exact ⟨tmpl, caCert, anchorKey, leafKey, h2, h4, h6⟩

/-- C8. In every run of `setupCerts` that returns, `tlsHttpServerConfig` holds a
configuration with minimum version TLS 1.0, application protocols exactly
`["http/1.1"]`, and as only certificate the one that `tls.X509KeyPair` returned
for the PEM of the server certificate just created and the PEM of the server's
own key; the accepting `tls.X509KeyPair` call precedes the assignment, that
configuration is the only one assigned, and in any run at all an assignment
follows an accepting `tls.X509KeyPair` call. -/
theorem C8_http_config (lib : Lib) (w : World) (g : Globals)
    (hok : (run (setupCerts lib) w g).returned = true) :
    ∃ (cfg : TlsConfig) (serverCert : TlsCertificate) (certBytes : Bytes) (leafKey : PrivateKey)
      (tmpl : Certificate) (parent : Option Certificate) (priv : Option PrivateKey),
      (run (setupCerts lib) w g).state.globals.tlsHttpServerConfig = some cfg
      ∧ cfg.MinVersion = VersionTLS10
      ∧ cfg.NextProtos = ["http/1.1"]
      ∧ cfg.Certificates = [serverCert]
      ∧ tmpl.SerialNumber = 2020
      ∧ Event.createCertificate tmpl parent leafKey.PublicKey priv
          ∈ (run (setupCerts lib) w g).state.trace
      ∧ lib.createCertificate tmpl parent leafKey.PublicKey priv = .ok certBytes
      ∧ lib.x509KeyPair (lib.pemEncode { BlockType := "CERTIFICATE", Bytes := certBytes })
          (lib.pemEncode
            { BlockType := "RSA PRIVATE KEY", Bytes := lib.marshalPKCS1PrivateKey leafKey })
          = .ok serverCert
      ∧ Event.x509KeyPair (lib.pemEncode { BlockType := "CERTIFICATE", Bytes := certBytes })
          (lib.pemEncode
            { BlockType := "RSA PRIVATE KEY", Bytes := lib.marshalPKCS1PrivateKey leafKey })
          ∈ (run (setupCerts lib) w g).state.trace.takeWhile (fun e => !e.isAssignHttp)
      ∧ (∀ c, Event.assignHttpConfig c ∈ (run (setupCerts lib) w g).state.trace → c = cfg)
      ∧ (∀ (w2 : World) (g2 : Globals) (c : TlsConfig),
          Event.assignHttpConfig c ∈ (run (setupCerts lib) w2 g2).state.trace →
          ∃ cp kp sc, lib.x509KeyPair cp kp = .ok sc ∧ c.Certificates = [sc]
            ∧ Event.x509KeyPair cp kp
                ∈ (run (setupCerts lib) w2 g2).state.trace.takeWhile
                    (fun e => !e.isAssignHttp)) := by
  obtain ⟨sc, certBytes, leafKey, tmpl, parent, priv, h1, h2, h3, h4, h5, h6, h7⟩ :=
    returned_http_config lib w g hok
  refine ⟨httpConfig sc, sc, certBytes, leafKey, tmpl, parent, priv, h1, rfl, rfl, rfl, h2, h3,
    h4, h5, h6, h7, ?_⟩
  intro w2 g2 c hc
  obtain ⟨cp, kp, sc2, hx, hcfg, hbefore⟩ := assign_after_accept lib w2 g2 c hc
  exact ⟨cp, kp, sc2, hx, by rw [hcfg]; rfl, hbefore⟩

/-- Witness of C8: the sample world with a stored anchor. -/
theorem C8_http_config_witness :
    ∃ cfg : TlsConfig,
      (run (setupCerts sampleLib) (sampleWorld anchorFs (fun _ => true))
        sampleGlobals).state.globals.tlsHttpServerConfig = some cfg
      ∧ cfg.MinVersion = 0x0301 ∧ cfg.NextProtos = ["http/1.1"] := by
  obtain ⟨cfg, _, _, _, _, _, _, h1, h2, h3, _⟩ :=
    C8_http_config sampleLib (sampleWorld anchorFs (fun _ => true)) sampleGlobals (by decide)
  exact ⟨cfg, h1, h2, h3⟩

/-! ## The first run -/

/-- C4, amended. When `cert/ca.pem` is absent and the key generation and the
certificate creation of the anchor succeed, the anchor is built self-signed
(the template is its own parent, the signing key is the 4096-bit key just
generated and the public key is that key's), with `IsCA` true and key usage
exactly `digitalSignature | certSign`, and `os.WriteFile` is called once on
`cert/ca.pem`, with the PEM block of type `CERTIFICATE` and permission
argument 0600. If that write fails, the run is fatal, `os.WriteFile` is never
called on `cert/key.pem` and the file system is as before. If it succeeds,
`cert/ca.pem` exists afterwards with that content and mode 0600, and
`os.WriteFile` is called once on `cert/key.pem`, with the PEM of the key and
permission argument 0600; if this second write fails, the run is fatal and
`cert/key.pem` is as before; if it succeeds, `cert/key.pem` holds the PEM of
the key, and it has mode 0600 when it did not exist before the run. What mode
a `cert/key.pem` that existed before the run ends with is not part of this
statement; `stale_key_keeps_mode` evaluates that case. -/
theorem C4_first_run (lib : Lib) (w : World) (g : Globals) (caKey : PrivateKey) (caBytes : Bytes)
    (habs : w.fs caPath = .absent)
    (hkey : w.keygen w.keyCalls 4096 = .ok caKey)
    (hcert : lib.createCertificate
        (caTemplate lib (w.clock w.clockCalls) (w.clock (w.clockCalls + 1)))
        (some (caTemplate lib (w.clock w.clockCalls) (w.clock (w.clockCalls + 1))))
        caKey.PublicKey (some caKey) = .ok caBytes) :
    (caTemplate lib (w.clock w.clockCalls) (w.clock (w.clockCalls + 1))).IsCA = true
    ∧ (caTemplate lib (w.clock w.clockCalls) (w.clock (w.clockCalls + 1))).KeyUsage
        = KeyUsageDigitalSignature ||| KeyUsageCertSign
    ∧ Event.generateKey 4096 ∈ (run (setupCerts lib) w g).state.trace
    ∧ Event.createCertificate
        (caTemplate lib (w.clock w.clockCalls) (w.clock (w.clockCalls + 1)))
        (some (caTemplate lib (w.clock w.clockCalls) (w.clock (w.clockCalls + 1))))
        caKey.PublicKey (some caKey) ∈ (run (setupCerts lib) w g).state.trace
    ∧ (run (setupCerts lib) w g).state.globals.ca
        = some (caTemplate lib (w.clock w.clockCalls) (w.clock (w.clockCalls + 1)))
    ∧ writesTo caPath (run (setupCerts lib) w g).state.trace
        = [(lib.pemEncode { BlockType := "CERTIFICATE", Bytes := caBytes }, 0o600)]
    ∧ (w.writable caPath = true →
        writesTo keyPath (run (setupCerts lib) w g).state.trace
          = [(lib.pemEncode
              { BlockType := "RSA PRIVATE KEY", Bytes := lib.marshalPKCS1PrivateKey caKey },
              0o600)])
    ∧ (w.writable caPath = false →
        writesTo keyPath (run (setupCerts lib) w g).state.trace = []
        ∧ (run (setupCerts lib) w g).isFatal = true
        ∧ (run (setupCerts lib) w g).state.world.fs = w.fs)
    ∧ (w.writable caPath = true →
        (run (setupCerts lib) w g).state.world.fs caPath
          = .file (lib.pemEncode { BlockType := "CERTIFICATE", Bytes := caBytes }) 0o600 true)
    ∧ (w.writable caPath = true → w.writable keyPath = false →
        (run (setupCerts lib) w g).isFatal = true
        ∧ (run (setupCerts lib) w g).state.world.fs keyPath = w.fs keyPath)
    ∧ (w.writable caPath = true → w.writable keyPath = true →
        ((run (setupCerts lib) w g).state.world.fs keyPath).content
          = some (lib.pemEncode
              { BlockType := "RSA PRIVATE KEY", Bytes := lib.marshalPKCS1PrivateKey caKey }))
    ∧ (w.writable caPath = true → w.writable keyPath = true → w.fs keyPath = .absent →
        (run (setupCerts lib) w g).state.world.fs keyPath
          = .file (lib.pemEncode
              { BlockType := "RSA PRIVATE KEY", Bytes := lib.marshalPKCS1PrivateKey caKey })
              0o600 true) := by
  refine ⟨rfl, rfl, ?_⟩
  simp [run, setupCerts, acquireTrustAnchor, generateTrustAnchor, issueAndAssemble, habs, hkey,
    Node.stat]
  simp only [hcert]
  repeat' split
  all_goals simp_all [writesTo]
  all_goals simp [Node.written]

/-- The first run beside a key file left from earlier. `cert/ca.pem` is absent
and `cert/key.pem` exists with mode 0644; both writes succeed and the run
returns. `os.WriteFile` is called on `cert/key.pem` with permission argument
0600, but an existing file keeps its mode: the new anchor key ends in a file
of mode 0644, while the new `cert/ca.pem` has mode 0600. -/
theorem stale_key_keeps_mode :
    (sampleWorld staleKeyFs (fun _ => true)).fs caPath = .absent
    ∧ (sampleWorld staleKeyFs (fun _ => true)).fs keyPath = .file [15, 1, 2, 3] 0o644 true
    ∧ (run (setupCerts sampleLib) (sampleWorld staleKeyFs (fun _ => true)) sampleGlobals).returned
        = true
    ∧ writesTo keyPath
        (run (setupCerts sampleLib) (sampleWorld staleKeyFs (fun _ => true)) sampleGlobals).state.trace
        = [([15, 1000, 65537, 7], 0o600)]
    ∧ (run (setupCerts sampleLib) (sampleWorld staleKeyFs (fun _ => true))
        sampleGlobals).state.world.fs keyPath = .file [15, 1000, 65537, 7] 0o644 true
    ∧ (run (setupCerts sampleLib) (sampleWorld staleKeyFs (fun _ => true))
        sampleGlobals).state.world.fs caPath = .file [11, 48, 2019, 2019, 7, 1000] 0o600 true := by
  decide

/-! ## Evaluations and the DoT configuration -/

/-- Witness of C4 as amended: the first run on the empty sample world, where
every write succeeds. -/
theorem C4_first_run_witness :
    writesTo keyPath
        (run (setupCerts sampleLib) (sampleWorld emptyFs (fun _ => true)) sampleGlobals).state.trace
      = [(sampleLib.pemEncode
            { BlockType := "RSA PRIVATE KEY",
              Bytes := sampleLib.marshalPKCS1PrivateKey
                { PublicKey := { N := 1000, E := 65537 }, D := 7 } }, 0o600)] :=
  (C4_first_run sampleLib (sampleWorld emptyFs (fun _ => true)) sampleGlobals
    { PublicKey := { N := 1000, E := 65537 }, D := 7 } [48, 2019, 2019, 7, 1000]
    (by decide) (by rfl) (by decide)).2.2.2.2.2.2.1 (by decide)

/-- C4, counterexample. On the empty sample world in which no write succeeds,
`cert/ca.pem` is absent and the anchor's key generation and certificate
creation succeed, yet the run dies on the write of `cert/ca.pem` and never
writes `cert/key.pem`. -/
theorem C4_counterexample :
    (sampleWorld emptyFs (fun _ => false)).fs caPath = .absent
    ∧ ptrOf ((sampleWorld emptyFs (fun _ => false)).keygen 0 4096)
        = some { PublicKey := { N := 1000, E := 65537 }, D := 7 }
    ∧ sampleLib.createCertificate (caTemplate sampleLib 1700000000 1700000001)
        (some (caTemplate sampleLib 1700000000 1700000001)) { N := 1000, E := 65537 }
        (some { PublicKey := { N := 1000, E := 65537 }, D := 7 })
        = .ok [48, 2019, 2019, 7, 1000]
    ∧ (run (setupCerts sampleLib) (sampleWorld emptyFs (fun _ => false)) sampleGlobals).isFatal
        = true
    ∧ writesTo caPath
        (run (setupCerts sampleLib) (sampleWorld emptyFs (fun _ => false)) sampleGlobals).state.trace
        = [([11, 48, 2019, 2019, 7, 1000], 0o600)]
    ∧ writesTo keyPath
        (run (setupCerts sampleLib) (sampleWorld emptyFs (fun _ => false)) sampleGlobals).state.trace
        = []
    ∧ (run (setupCerts sampleLib) (sampleWorld emptyFs (fun _ => false))
        sampleGlobals).state.world.fs keyPath = .absent := by
  decide

/-- C5, the code at a failing input. `cert/ca.pem` exists and holds a PEM block
whose bytes `x509.ParseCertificate` rejects; the run does not end in
`log.Fatal` at the load step: it leaves `ca` nil, goes on to generate the
server key and calls `x509.CreateCertificate` with a nil parent. -/
theorem C5_unparsed_anchor_reaches_issuance :
    (sampleWorld badDerFs (fun _ => true)).fs caPath = .file [11, 0, 0] 0o600 true
    ∧ sampleLib.pemDecode [11, 0, 0] = some { BlockType := "CERTIFICATE", Bytes := [0, 0] }
    ∧ ptrOf (sampleLib.parseCertificate [0, 0]) = none
    ∧ (run (setupCerts sampleLib) (sampleWorld badDerFs (fun _ => true)) sampleGlobals).isFatal
        = false
    ∧ (run (setupCerts sampleLib) (sampleWorld badDerFs (fun _ => true))
        sampleGlobals).state.globals.ca = none
    ∧ Event.generateKey 4096
        ∈ (run (setupCerts sampleLib) (sampleWorld badDerFs (fun _ => true))
            sampleGlobals).state.trace
    ∧ Event.createCertificate
        (leafTemplate sampleLib ["*.a.test", "a.test", "*.b.test", "b.test"] 1700000000 1700000001)
        none { N := 1000, E := 65537 } (some { PublicKey := { N := 77, E := 65537 }, D := 5 })
        ∈ (run (setupCerts sampleLib) (sampleWorld badDerFs (fun _ => true))
            sampleGlobals).state.trace := by
  decide

/-- C10, the code at a failing input. `os.Stat("cert/ca.pem")` fails with an
error other than "not exist" in a fresh process (`ca` nil): neither branch
runs, no `log.Fatal` is reached, and the very next calls are those of the
server certificate, `x509.CreateCertificate` being called with a nil parent
and a nil signing key. -/
theorem C10_stat_error_reaches_issuance :
    ((sampleWorld deniedFs (fun _ => true)).fs caPath).stat = .otherError
    ∧ sampleGlobals.ca = none
    ∧ (run (setupCerts sampleLib) (sampleWorld deniedFs (fun _ => true)) sampleGlobals).isFatal
        = false
    ∧ (run (setupCerts sampleLib) (sampleWorld deniedFs (fun _ => true))
        sampleGlobals).state.trace
      = [Event.stat caPath, Event.now, Event.now, Event.generateKey 4096,
          Event.createCertificate
            (leafTemplate sampleLib ["*.a.test", "a.test", "*.b.test", "b.test"]
              1700000000 1700000001)
            none { N := 1000, E := 65537 } none] := by
  decide

/-- C9, counterexample. A returning run of `setupDoTCerts` leaves a
configuration whose `PreferServerCipherSuites` is true, not the zero value. -/
theorem C9_counterexample :
    (run (setupDoTCerts sampleLib) (sampleWorld dotFs (fun _ => true)) sampleGlobals).returned
        = true
    ∧ ((run (setupDoTCerts sampleLib) (sampleWorld dotFs (fun _ => true))
        sampleGlobals).state.globals.tlsDoTServerConfig.map
          (fun cfg => cfg.PreferServerCipherSuites)) = some true
    ∧ ({} : TlsConfig).PreferServerCipherSuites = false := by
  decide

/-- C9, amended. In every run of `setupDoTCerts` that returns,
`tlsDoTServerConfig` holds exactly the one certificate loaded from the two DoT
files and `PreferServerCipherSuites = true`, as the interception configuration
does; `MinVersion`, `MaxVersion`, `CipherSuites` and `NextProtos` keep their
zero values, unlike the interception configuration's `MinVersion` and
`NextProtos`. -/
theorem C9_dot_config (lib : Lib) (w : World) (g : Globals)
    (hok : (run (setupDoTCerts lib) w g).returned = true) :
    ∃ (serverCert : TlsCertificate) (certPEM keyPEM : Bytes) (cfg : TlsConfig),
      (w.fs dotCertPath).read = .ok certPEM
      ∧ (w.fs dotKeyPath).read = .ok keyPEM
      ∧ lib.x509KeyPair certPEM keyPEM = .ok serverCert
      ∧ (run (setupDoTCerts lib) w g).state.globals.tlsDoTServerConfig = some cfg
      ∧ cfg = { Certificates := [serverCert], PreferServerCipherSuites := true }
      ∧ cfg.Certificates = [serverCert]
      ∧ cfg.PreferServerCipherSuites = true
      ∧ cfg.MinVersion = 0
      ∧ cfg.MaxVersion = 0
      ∧ cfg.CipherSuites = []
      ∧ cfg.NextProtos = []
      ∧ cfg.MinVersion ≠ (httpConfig serverCert).MinVersion
      ∧ cfg.NextProtos ≠ (httpConfig serverCert).NextProtos
      ∧ cfg.PreferServerCipherSuites = (httpConfig serverCert).PreferServerCipherSuites := by
  revert hok
  simp [run, setupDoTCerts]
  repeat' split
  all_goals simp_all [dotConfig, httpConfig]

/-- Witness of C9 as amended: the sample world with a DoT pair. -/
theorem C9_dot_config_witness :
    ∃ cfg : TlsConfig,
      (run (setupDoTCerts sampleLib) (sampleWorld dotFs (fun _ => true))
        sampleGlobals).state.globals.tlsDoTServerConfig = some cfg
      ∧ cfg.PreferServerCipherSuites = true ∧ cfg.MinVersion = 0 := by
  obtain ⟨sc, cp, kp, cfg, -, -, -, h1, -, -, h2, h3, -⟩ :=
    C9_dot_config sampleLib (sampleWorld dotFs (fun _ => true)) sampleGlobals (by decide)
  exact ⟨cfg, h1, h2, h3⟩

end Freenews
